import Mathlib

/-!
Verification of the familytree storage layer (`familytree/storage.py`,
`familytree/source.py`, `familytree/urls.py`) against its natural-language
specification.  Python values, the normalization cascade, the hashing
pipeline (pickle + SHA-1), the sqlite schema initializer, the Neo4j layer
initialization, and the session models are shallowly embedded as Lean
functions below; the theorems at the end of the file settle the claims.
-/

namespace FamilyTree

/-! ## Python strings

Python strings are modelled as lists of Unicode code points.  `str.lower`
is modelled on the ASCII fragment (code points 65–90 map to 97–122, all
other code points are fixed); the strings handled by this program are
labels, attribute names and attribute values in that fragment.
-/

/-- Model of a Python `str`: a list of Unicode code points. -/
abbrev PyStr := List Nat

/-- Model of `str.lower` on one code point (ASCII fragment): uppercase
letters A–Z map to a–z, everything else is unchanged. -/
def pyCharLower (c : Nat) : Nat :=
  if 65 ≤ c ∧ c ≤ 90 then c + 32 else c

/-- Model of `str.lower`: code-point-wise lowering. -/
def pyLower (s : PyStr) : PyStr := s.map pyCharLower

/-! ## Python structured values

The values that flow through `_normalize` and `generate_hash`: dictionaries
(insertion-ordered, as in CPython ≥ 3.7, with string keys as used throughout
this code base), lists, tuples, strings, `datetime.datetime`,
`datetime.date`, and scalar leaves (`int`, `bool`, `None`).  The mutual
inductive keeps recursion and induction structural.
-/

mutual

/-- A Python value as handled by `familytree.storage._normalize`. -/
inductive PyValue where
  | dt (year month day hour minute second microsecond : Nat)
  | date (year month day : Nat)
  | str (s : PyStr)
  | int (n : Int)
  | bool (b : Bool)
  | none
  | list (l : PyList)
  | tuple (l : PyList)
  | dict (d : PyDict)

/-- A Python list (or tuple/generator contents) of `PyValue`s. -/
inductive PyList where
  | nil
  | cons (hd : PyValue) (tl : PyList)

/-- A Python dict with string keys, entries in insertion order. -/
inductive PyDict where
  | nil
  | cons (key : PyStr) (val : PyValue) (tl : PyDict)

end

/-! ## The `_normalize` cascade

`_normalize` tries `normalize_datetime`, `normalize_string`,
`normalize_dict`, `normalize_iterable` in order, catching
`AttributeError`/`TypeError`, and returns the argument unchanged when every
hook fails.  Tracing each constructor through the cascade:

* `datetime.datetime` → `value.replace(microsecond=0)` succeeds: the
  microsecond field is zeroed, everything else kept.
* `datetime.date` → `replace(microsecond=0)` raises `TypeError` (no such
  keyword), `.lower` / `.items` raise `AttributeError`, iteration raises
  `TypeError`: the date is returned unchanged.
* `str` → `replace(microsecond=0)` raises `TypeError` (no keyword
  arguments), `.lower()` succeeds: the string is lowercased.
* `dict` → the first two hooks raise `AttributeError`; `normalize_dict`
  rebuilds the dict with the same keys and normalized values (keys are not
  normalized, insertion order is preserved by the dict comprehension).
* `list`/`tuple` (and generators) → the first three hooks fail;
  `normalize_iterable` produces a `list` of normalized elements.
* `int`, `bool`, `None` → every hook fails; returned unchanged.
-/

mutual

/-- Model of `familytree.storage._normalize`. -/
def pyNormalize : PyValue → PyValue
  | .dt y mo d h mi s _us => .dt y mo d h mi s 0
  | .date y mo d => .date y mo d
  | .str s => .str (pyLower s)
  | .int n => .int n
  | .bool b => .bool b
  | .none => .none
  | .list l => .list (pyNormalizeList l)
  | .tuple l => .list (pyNormalizeList l)
  | .dict d => .dict (pyNormalizeDict d)

/-- Elementwise `_normalize` over list contents (`normalize_iterable`). -/
def pyNormalizeList : PyList → PyList
  | .nil => .nil
  | .cons hd tl => .cons (pyNormalize hd) (pyNormalizeList tl)

/-- Valuewise `_normalize` over dict entries (`normalize_dict`): keys kept,
values normalized, entry order preserved. -/
def pyNormalizeDict : PyDict → PyDict
  | .nil => .nil
  | .cons k v tl => .cons k (pyNormalize v) (pyNormalizeDict tl)

end

/-! ## SHA-1 (`hashlib.sha1`)

A direct implementation of FIPS 180 SHA-1 over byte lists, with the
lowercase hexadecimal rendering of `hexdigest()`.  32-bit machine words are
`Nat`s kept below `2^32` by masking.
-/

/-- Mask for a 32-bit word, `2^32 - 1`. -/
def mask32 : Nat := 4294967295

/-- Left-rotation of a 32-bit word by `n` bits. -/
def rotl32 (n x : Nat) : Nat :=
  ((x <<< n) ||| (x >>> (32 - n))) &&& mask32

/-- Round function of SHA-1 (choice / parity / majority / parity). -/
def sha1F (i b c d : Nat) : Nat :=
  if i < 20 then (b &&& c) ||| ((mask32 ^^^ b) &&& d)
  else if i < 40 then b ^^^ c ^^^ d
  else if i < 60 then (b &&& c) ||| (b &&& d) ||| (c &&& d)
  else b ^^^ c ^^^ d

/-- Round constants of SHA-1. -/
def sha1K (i : Nat) : Nat :=
  if i < 20 then 0x5A827999
  else if i < 40 then 0x6ED9EBA1
  else if i < 60 then 0x8F1BBCDC
  else 0xCA62C1D6

/-- Big-endian rendering of `n` into `k` bytes. -/
def beBytes : Nat → Nat → List Nat
  | 0, _ => []
  | k + 1, n => beBytes k (n >>> 8) ++ [n &&& 255]

/-- SHA-1 padding: append `0x80`, zeros to 56 mod 64, and the 64-bit
big-endian bit length. -/
def sha1Pad (msg : List Nat) : List Nat :=
  let l := msg.length
  msg ++ [128] ++ List.replicate ((120 - ((l + 1) % 64)) % 64) 0 ++ beBytes 8 (8 * l)

/-- Group bytes into big-endian 32-bit words. -/
def bytesToWords : List Nat → List Nat
  | b0 :: b1 :: b2 :: b3 :: rest =>
      ((((b0 <<< 8) ||| b1) <<< 8 ||| b2) <<< 8 ||| b3) :: bytesToWords rest
  | _ => []

/-- Extend the 16-word schedule by `k` further words. -/
def sha1Extend (ws : List Nat) : Nat → List Nat
  | 0 => ws
  | k + 1 =>
      let prev := sha1Extend ws k
      let n := prev.length
      prev ++ [rotl32 1 ((prev.getD (n - 3) 0) ^^^ (prev.getD (n - 8) 0) ^^^
        (prev.getD (n - 14) 0) ^^^ (prev.getD (n - 16) 0))]

/-- The 80 compression rounds over the word schedule. -/
def sha1Rounds : List Nat → Nat → Nat × Nat × Nat × Nat × Nat → Nat × Nat × Nat × Nat × Nat
  | [], _, st => st
  | w :: ws, i, (a, b, c, d, e) =>
      let temp := (rotl32 5 a + sha1F i b c d + e + sha1K i + w) &&& mask32
      sha1Rounds ws (i + 1) (temp, a, rotl32 30 b, c, d)

/-- Process the padded message 64 bytes at a time.  The first argument is
fuel (one unit per chunk) keeping the recursion structural so that the
definition evaluates inside the kernel. -/
def sha1ChunksFuel : Nat → List Nat → Nat × Nat × Nat × Nat × Nat → Nat × Nat × Nat × Nat × Nat
  | 0, _, st => st
  | _, [], st => st
  | fuel + 1, b :: bs, (h0, h1, h2, h3, h4) =>
      let ws := sha1Extend (bytesToWords ((b :: bs).take 64)) 64
      let (a, b', c, d, e) := sha1Rounds ws 0 (h0, h1, h2, h3, h4)
      sha1ChunksFuel fuel ((b :: bs).drop 64)
        ((h0 + a) &&& mask32, (h1 + b') &&& mask32, (h2 + c) &&& mask32,
         (h3 + d) &&& mask32, (h4 + e) &&& mask32)

/-- Process a padded message (one fuel unit per byte is more than enough). -/
def sha1Chunks (bytes : List Nat) (st : Nat × Nat × Nat × Nat × Nat) :
    Nat × Nat × Nat × Nat × Nat :=
  sha1ChunksFuel bytes.length bytes st

/-- SHA-1 digest of a byte list, as 20 bytes. -/
def sha1Bytes (msg : List Nat) : List Nat :=
  let (h0, h1, h2, h3, h4) :=
    sha1Chunks (sha1Pad msg) (0x67452301, 0xEFCDAB89, 0x98BADCFE, 0x10325476, 0xC3D2E1F0)
  beBytes 4 h0 ++ beBytes 4 h1 ++ beBytes 4 h2 ++ beBytes 4 h3 ++ beBytes 4 h4

/-- Lowercase hex digit of `n % 16`: code points 48–57 for the decimal
digits, 97–102 for `a`–`f`. -/
def hexDigitChar (n : Nat) : Char :=
  Char.ofNat (if n % 16 < 10 then 48 + n % 16 else 87 + n % 16)

/-- The lowercase hexadecimal alphabet used by `hexdigest()`. -/
def hexChars : List Char := (List.range 16).map hexDigitChar

/-- Two lowercase hex digits of a byte. -/
def byteToHex (b : Nat) : List Char := [hexDigitChar (b / 16), hexDigitChar b]

/-- Model of `hashlib.sha1(msg).hexdigest()`. -/
def sha1Hex (msg : List Nat) : String := String.mk ((sha1Bytes msg).flatMap byteToHex)

/-! ## UTF-8 encoding (`str.encode('utf-8')`) -/

/-- The UTF-8 byte sequence of one code point. -/
def utf8EncodeChar (c : Nat) : List Nat :=
  if c < 128 then [c]
  else if c < 2048 then [192 ||| (c >>> 6), 128 ||| (c &&& 63)]
  else if c < 65536 then
    [224 ||| (c >>> 12), 128 ||| ((c >>> 6) &&& 63), 128 ||| (c &&& 63)]
  else
    [240 ||| (c >>> 18), 128 ||| ((c >>> 12) &&& 63),
     128 ||| ((c >>> 6) &&& 63), 128 ||| (c &&& 63)]

/-- Model of `str.encode('utf-8')`. -/
def utf8Encode (s : PyStr) : List Nat := s.flatMap utf8EncodeChar

/-! ## `familytree.source`

`Source.__init__` stores `title` and `source_type` and assigns
`self.id = hashlib.sha1(b':'.join([b'source', title.encode('utf-8'),
source_type.encode('utf-8'), now.encode('utf-8')])).hexdigest()` where
`now = datetime.date.today().isoformat()`.  The current date is a runtime
input and appears below as the parameter `todayIso`.  No other method of
the class touches `id`, so the digest is computed once, at construction.
-/

/-- The byte string `b"source"`. -/
def sourceTag : List Nat := [115, 111, 117, 114, 99, 101]

/-- Model of the `Source` record: `title`, `source_type` and the `id`
assigned in `__init__`. -/
structure Source where
  title : PyStr
  source_type : PyStr
  id : String

/-- Model of `Source.__init__(title, source_type)` on the date `todayIso`. -/
def SourceInit (title source_type todayIso : PyStr) : Source :=
  { title := title
    source_type := source_type
    id := sha1Hex (List.intercalate [58]
      [sourceTag, utf8Encode title, utf8Encode source_type, utf8Encode todayIso]) }

/-- Model of `familytree.source.create_source(title, source_type)`. -/
def create_source (title source_type todayIso : PyStr) : Source :=
  SourceInit title source_type todayIso

/-! ## Pickle serialization (`pickle.dumps`, protocol 4)

`generate_hash` feeds `pickle.dumps((object_type.lower(),
_normalize(object_data)))` to SHA-1.  The CPython pickler is modelled here
at its default protocol 4 for the value fragment reachable from
`_normalize` output: strings (SHORT_BINUNICODE/BINUNICODE, then MEMOIZE),
ints (BININT1/BININT2/BININT/LONG1), booleans (NEWTRUE/NEWFALSE), `None`
(NONE), lists (EMPTY_LIST + MEMOIZE + APPEND/APPENDS batches), tuples
(EMPTY_TUPLE/TUPLE1/TUPLE2/TUPLE3/TUPLE + MEMOIZE), dicts (EMPTY_DICT +
MEMOIZE + SETITEM/SETITEMS batches, entries emitted in the dict's
iteration order — insertion order in CPython ≥ 3.7), and
`datetime.datetime`/`datetime.date` (their `__reduce__` form:
STACK_GLOBAL of `datetime.datetime`/`datetime.date`, the packed byte
payload, TUPLE1, REDUCE, with MEMOIZE after each constructed object).
Two simplifications, neither exercised by any theorem below: batches
beyond 1000 elements are not split, and memo back-references (BINGET) for
an object appearing twice by identity are not modelled — the inputs the
theorems evaluate contain no repeated objects.
-/

/-- Little-endian rendering of `n` into `k` bytes. -/
def leBytes : Nat → Nat → List Nat
  | 0, _ => []
  | k + 1, n => (n &&& 255) :: leBytes k (n >>> 8)

/-- Minimal little-endian two's-complement encoding of an integer, the
payload of the LONG1 opcode (`pickle.encode_long`).  The fuel bounds the
byte count at 64 (integers up to `2^511`, far beyond anything hashed by
this program). -/
def encodeLong : Nat → Int → List Nat
  | 0, _ => []
  | fuel + 1, n =>
      if n = 0 then []
      else
        let b := (n % 256).toNat
        let rest := (n - b) / 256
        if (rest = 0 ∧ b < 128) ∨ (rest = -1 ∧ 128 ≤ b) then [b]
        else b :: encodeLong fuel rest

/-- Opcodes for a pickled `int`. -/
def pickleInt (n : Int) : List Nat :=
  if 0 ≤ n ∧ n < 256 then [75, n.toNat]
  else if 0 ≤ n ∧ n < 65536 then 77 :: leBytes 2 n.toNat
  else if -2147483648 ≤ n ∧ n < 2147483648 then 74 :: leBytes 4 ((n % 4294967296).toNat)
  else
    let payload := encodeLong 64 n
    [138, payload.length] ++ payload

/-- Opcodes for a pickled `str` (memoized). -/
def pickleStr (s : PyStr) : List Nat :=
  let bytes := utf8Encode s
  (if bytes.length < 256 then [140, bytes.length] ++ bytes
   else 88 :: leBytes 4 bytes.length ++ bytes) ++ [148]

/-- Opcodes binding the class `module.name` via STACK_GLOBAL (memoized). -/
def pickleGlobal (module name : List Nat) : List Nat :=
  [140, module.length] ++ module ++ [148, 140, name.length] ++ name ++ [148, 147, 148]

/-- The bytes of `"datetime"`. -/
def datetimeName : List Nat := [100, 97, 116, 101, 116, 105, 109, 101]

/-- The bytes of `"date"`. -/
def dateName : List Nat := [100, 97, 116, 101]

mutual

/-- Opcodes for one pickled value (protocol 4 fragment, see section
comment). -/
def pickleValue : PyValue → List Nat
  | .dt y mo d h mi s us =>
      pickleGlobal datetimeName datetimeName ++
      [67, 10, (y >>> 8) &&& 255, y &&& 255, mo, d, h, mi, s,
       (us >>> 16) &&& 255, (us >>> 8) &&& 255, us &&& 255] ++
      [148, 133, 148, 82, 148]
  | .date y mo d =>
      pickleGlobal datetimeName dateName ++
      [67, 4, (y >>> 8) &&& 255, y &&& 255, mo, d] ++
      [148, 133, 148, 82, 148]
  | .str s => pickleStr s
  | .int n => pickleInt n
  | .bool b => [if b then 136 else 137]
  | .none => [78]
  | .list .nil => [93, 148]
  | .list (.cons hd .nil) => [93, 148] ++ pickleValue hd ++ [97]
  | .list (.cons hd (.cons hd2 tl)) =>
      [93, 148, 40] ++ pickleValue hd ++ pickleValue hd2 ++ pickleItems tl ++ [101]
  | .tuple .nil => [41]
  | .tuple (.cons a .nil) => pickleValue a ++ [133, 148]
  | .tuple (.cons a (.cons b .nil)) => pickleValue a ++ pickleValue b ++ [134, 148]
  | .tuple (.cons a (.cons b (.cons c .nil))) =>
      pickleValue a ++ pickleValue b ++ pickleValue c ++ [135, 148]
  | .tuple (.cons a (.cons b (.cons c (.cons d tl)))) =>
      40 :: pickleValue a ++ pickleValue b ++ pickleValue c ++ pickleValue d ++
        pickleItems tl ++ [116, 148]
  | .dict .nil => [125, 148]
  | .dict (.cons k v .nil) => [125, 148] ++ pickleStr k ++ pickleValue v ++ [115]
  | .dict (.cons k v (.cons k2 v2 tl)) =>
      [125, 148, 40] ++ pickleStr k ++ pickleValue v ++ pickleStr k2 ++ pickleValue v2 ++
        pickleEntries tl ++ [117]

/-- Concatenated opcodes of list elements. -/
def pickleItems : PyList → List Nat
  | .nil => []
  | .cons hd tl => pickleValue hd ++ pickleItems tl

/-- Concatenated opcodes of dict entries in iteration order. -/
def pickleEntries : PyDict → List Nat
  | .nil => []
  | .cons k v tl => pickleStr k ++ pickleValue v ++ pickleEntries tl

end

/-- Model of `pickle.dumps((a, b))` at protocol 4: the PROTO header, a FRAME
header when the framed data reaches 4 bytes, the two elements, TUPLE2,
MEMOIZE and STOP. -/
def pickleDumpsPair (a b : PyValue) : List Nat :=
  let body := pickleValue a ++ pickleValue b ++ [134, 148, 46]
  [128, 4] ++ (if 4 ≤ body.length then 149 :: leBytes 8 body.length else []) ++ body

/-- Model of `familytree.storage.generate_hash`: the SHA-1 hex digest of the
pickled pair `(object_type.lower(), _normalize(object_data))`. -/
def generate_hash (object_type : PyStr) (object_data : PyValue) : String :=
  sha1Hex (pickleDumpsPair (.str (pyLower object_type)) (pyNormalize object_data))

/-- The dict `{'a': '1', 'b': '2'}` built in that insertion order. -/
def hashDictAB : PyDict := .cons [97] (.str [49]) (.cons [98] (.str [50]) .nil)

/-- The dict `{'b': '2', 'a': '1'}`: the same key-value pairs inserted in
the opposite order. -/
def hashDictBA : PyDict := .cons [98] (.str [50]) (.cons [97] (.str [49]) .nil)

/-! ## `JsonSessionMixin._normalize_date`

The static method first tries `obj.replace(second=0, microsecond=0)` — on a
`datetime` this zeroes both the second and the microsecond, so the returned
six-element list always ends in `0`; on a `date` (no such keywords) it
raises `TypeError` and the second branch returns `[year, month, day]`; on
anything else both branches fail and `str(obj)` is returned (the rendering
of `str` is kept symbolic: no theorem depends on it).
-/

/-- Result of `_normalize_date`: an integer list, or `str(obj)` of the
recorded value. -/
inductive JsonDateResult where
  | ints (l : List Nat)
  | text (v : PyValue)

/-- Model of `JsonSessionMixin._normalize_date`. -/
def JsonSessionMixin_normalize_date : PyValue → JsonDateResult
  | .dt y mo d h mi _s _us => .ints [y, mo, d, h, mi, 0]
  | .date y mo d => .ints [y, mo, d]
  | v => .text v

/-! ## `_SqliteLayer._create_database`

Each of the two `CREATE TABLE` statements runs inside a
`try/except sqlite3.OperationalError` whose handler re-raises unless the
error text contains the corresponding `table ... already exists` marker.
One execution attempt is modelled as its outcome: success, or an
`OperationalError` carrying its message.
-/

/-- Outcome of one `connection.execute('CREATE TABLE ...')`. -/
inductive SqlResult where
  | ok
  | operror (msg : String)

/-- The marker checked for the `source` table. -/
def sourceMarker : String := "table source already exists"

/-- The marker checked for the `people` table. -/
def peopleMarker : String := "table people already exists"

/-- Model of one guarded `CREATE TABLE`: an `OperationalError` is
suppressed exactly when `marker` occurs in the error text. -/
def createTableTolerant (marker : String) : SqlResult → Except String Unit
  | .ok => .ok ()
  | .operror msg => if marker.toList <:+: msg.toList then .ok () else .error msg

/-- Model of `_SqliteLayer._create_database`, given the outcome of each
`CREATE TABLE` attempt: the first guarded statement runs, and only when it
did not re-raise does the second one run. -/
def create_database (rSource rPeople : SqlResult) : Except String Unit :=
  match createTableTolerant sourceMarker rSource with
  | .error e => .error e
  | .ok _ => createTableTolerant peopleMarker rPeople

/-! ## `familytree.urls.append` -/

deriving instance DecidableEq for Except

/-- Model of `root.endswith('/')`: the last character is `'/'`. -/
def strEndsWithSlash (s : String) : Bool := s.data.getLast? == some '/'

/-- Model of `root[:-1]`. -/
def strDropLast (s : String) : String := String.mk s.data.dropLast

/-- Model of `segment.strip('/')`. -/
def stripSlashes (s : String) : String :=
  String.mk (((s.data.dropWhile (· = '/')).reverse.dropWhile (· = '/')).reverse)

/-- Model of `urllib.parse.quote` on the strings this program builds URLs
from (labels such as `Person`, made of unreserved characters, which
`quote` passes through unchanged). -/
def urlQuote (s : String) : String := s

/-- Model of `familytree.urls.append(root, segment)` for one segment. -/
def urlsAppend (root segment : String) : String :=
  (if strEndsWithSlash root then strDropLast root else root) ++ "/" ++
    urlQuote (stripSlashes segment)

/-! ## `_Neo4jLayer` initialization

`__init__` calls `_create_neo_labels`, which reads the `neo_actions`
property (a memoized GET of the service root, the only response in this
flow passed through `raise_for_status`), GETs the index list at
`neo_actions['indexes']` *without* checking its status, and, when no
listed index carries the label `Person`, POSTs
`_create_label('Person', ['external_id'])` — again without checking the
response status.  Responses are modelled as a status plus the parsed JSON
body (the index-list body as the set of its `label` fields).
-/

/-- Model of `requests.Response.raise_for_status`: raises for HTTP status
codes 400–599. -/
def raiseForStatus (status : Nat) : Bool := 400 ≤ status && status < 600

/-- Responses the graph store would return during `_Neo4jLayer.__init__`. -/
structure Neo4jEnv where
  rootStatus : Nat
  rootActions : List (String × String)
  indexListStatus : Nat
  indexLabels : List String
  createStatus : Nat

/-- One create-index POST: its URL and the `property_keys` of its body. -/
structure CreateIndexRequest where
  url : String
  property_keys : List String
deriving DecidableEq

/-- The requests a completed `_Neo4jLayer.__init__` issued. -/
structure Neo4jInitTrace where
  rootFetches : Nat
  indexListFetches : Nat
  createRequests : List CreateIndexRequest
deriving DecidableEq

/-- Errors that `_Neo4jLayer.__init__` can raise: `raise_for_status`, or
`KeyError` on `neo_actions['indexes']`. -/
inductive NeoError where
  | httpError (status : Nat)
  | keyError (key : String)
deriving DecidableEq

/-- Model of `_Neo4jLayer.__init__` (via `_create_neo_labels` and
`_create_label`). -/
def neo4jLayerInit (env : Neo4jEnv) : Except NeoError Neo4jInitTrace :=
  if raiseForStatus env.rootStatus then .error (.httpError env.rootStatus)
  else
    match env.rootActions.lookup "indexes" with
    | Option.none => .error (.keyError "indexes")
    | some indexesUrl =>
        .ok ⟨1, 1,
          if "Person" ∈ env.indexLabels then []
          else [⟨urlsAppend indexesUrl "Person", ["external_id"]⟩]⟩

/-- Environment in which both the index-listing GET and the create-index
POST answer HTTP 500 (with parseable bodies) while the service root
succeeds. -/
def failingStatusEnv : Neo4jEnv :=
  ⟨200, [("indexes", "http://index-url/")], 500, [], 500⟩

/-- Environment in which every response succeeds and no `Person` index is
listed. -/
def noPersonEnv : Neo4jEnv :=
  ⟨200, [("indexes", "http://index-url/")], 200, [], 201⟩

/-! ## `NeoSession.ensure_indexed` (modelled from the spec)

`ensure_indexed` is absent from `src/familytree/storage.py`; only its unit
tests (`tests/unit/neo_session_tests.py`) are present.  It is modelled
from the spec, §4.3: check the memoized set of indexed labels; if the
label is absent, GET the authoritative index list (checked with
`raise_for_status`), replace the memoized set with the fresh result and
re-check; if still absent, POST a create-index request for the label with
the fixed property key `externalId` (checked with `raise_for_status`) and
add the label to the set.
-/

/-- Responses available to one `ensure_indexed` call. -/
structure EnsureEnv where
  listStatus : Nat
  freshLabels : List String
  createStatus : Nat

/-- The requests one `ensure_indexed` call issued. -/
structure EnsureTrace where
  listFetches : Nat
  createPosts : List CreateIndexRequest
deriving DecidableEq

/-- Modelled from the spec: `NeoSession.ensure_indexed(label)` over the
memoized set `indexes`, returning the new memoized set and the issued
requests, or the status it raised on. -/
def ensure_indexed (label : String) (indexes : List String) (indexesUrl : String)
    (env : EnsureEnv) : Except Nat (List String × EnsureTrace) :=
  if label ∈ indexes then .ok (indexes, ⟨0, []⟩)
  else if raiseForStatus env.listStatus then .error env.listStatus
  else if label ∈ env.freshLabels then .ok (env.freshLabels, ⟨1, []⟩)
  else if raiseForStatus env.createStatus then .error env.createStatus
  else .ok (label :: env.freshLabels, ⟨1, [⟨urlsAppend indexesUrl label, ["externalId"]⟩]⟩)

/-- Iterated `ensure_indexed` calls against a fixed environment, threading
the memoized set and accumulating the issued requests. -/
def ensureIndexedTimes (label : String) (indexes : List String) (indexesUrl : String)
    (env : EnsureEnv) : Nat → Except Nat (List String × EnsureTrace)
  | 0 => .ok (indexes, ⟨0, []⟩)
  | n + 1 =>
      match ensure_indexed label indexes indexesUrl env with
      | .error e => .error e
      | .ok (st, t) =>
          match ensureIndexedTimes label st indexesUrl env n with
          | .error e => .error e
          | .ok (st', t') => .ok (st', ⟨t.listFetches + t'.listFetches, t.createPosts ++ t'.createPosts⟩)

/-! ## `StorageLayer.create_object` (modelled from the spec)

`create_object`, `find_object` and `NeoNode` are absent from
`src/familytree/storage.py`; only their unit tests
(`tests/unit/storage_layer_tests.py`) are present.  They are modelled from
the spec, §4.5: compute the identifier with `generate_hash` unless an
explicit id is supplied, search the label-scoped node listing for that
`externalId`, return the first match with no POSTs if found; otherwise
POST a new node carrying `data` plus `externalId = id` (the `externalId`
property is the node's `externalId` field below), POST its label, and
return the new node.
-/

/-- A node of the graph store as the storage layer sees it. -/
structure GraphNode where
  externalId : String
  properties : PyDict
  labels : List PyStr

/-- The graph store: its node listing. -/
structure GraphStore where
  nodes : List GraphNode

/-- Modelled from the spec: the label-scoped node search
(`GET label/{label}/nodes?externalId="<id>"`). -/
def find_object (store : GraphStore) (label : PyStr) (oid : String) : List GraphNode :=
  store.nodes.filter (fun n => decide (label ∈ n.labels) && decide (n.externalId = oid))

/-- POST counts of one `create_object` call. -/
structure CreateTrace where
  nodeCreatePosts : Nat
  labelPosts : Nat
deriving DecidableEq

/-- Result of one `create_object` call: the returned node, the graph store
afterwards, and the issued POSTs. -/
structure CreateResult where
  node : GraphNode
  store : GraphStore
  trace : CreateTrace

/-- Modelled from the spec: `StorageLayer.create_object(label, data,
object_id=None)` against the graph store `store`. -/
def create_object (label : PyStr) (data : PyDict) (object_id : Option String)
    (store : GraphStore) : CreateResult :=
  let oid := match object_id with
    | some i => i
    | Option.none => generate_hash label (.dict data)
  match find_object store label oid with
  | m :: _ => ⟨m, store, ⟨0, 0⟩⟩
  | [] =>
      let node : GraphNode := { externalId := oid, properties := data, labels := [label] }
      ⟨node, ⟨store.nodes ++ [node]⟩, ⟨1, 1⟩⟩

/-! ## `NeoSession.action_links` and `NeoSession.request`

The `action_links` property memoizes the parsed service-root document in
`_action_links` (`None` until the first access); `request` substitutes the
`url` argument when it is a key of that map and passes it through
unchanged otherwise.  The two call each other: on a cache miss the getter
runs `self.get('')`, and `requests.Session.get` dynamically dispatches
back into `NeoSession.request`, whose first statement
(`if url in self.action_links`) re-reads the property while
`_action_links` is still `None` — so a cold-cache access recurses through
`action_links → get('') → request → action_links → …` without ever
reaching `super().request`, until Python's call-stack limit aborts it with
`RecursionError`.  (The unit tests mock `get` and expect a
recursion-breaking `_ignore_actions=True` keyword that this version of
the source does not have.)  The models below carry the Python call-depth
budget as fuel and record every URL that actually reaches
`super().request`.  The action-link map is modelled as a string-to-string
association list (the one non-string value in the real document,
`"extensions": {}`, plays no role in URL substitution).
-/

/-- The parsed service-root document (`GET ''`). -/
structure RootEnv where
  links : List (String × String)

/-- The `_action_links` attribute: `None` until the first access. -/
structure NeoSessionState where
  cache : Option (List (String × String))
deriving DecidableEq

/-- Outcome of a Python call under a bounded call depth: a value together
with the session state afterwards and the URLs that reached
`super().request`, or a `RecursionError` (likewise carrying the URLs
requested before the stack limit hit). -/
inductive PyCallResult (α : Type) where
  | ok (value : α) (st : NeoSessionState) (requested : List String)
  | recursionError (requested : List String)
deriving DecidableEq

mutual

/-- Model of the `NeoSession.action_links` property getter at call depth
`fuel`: a cache hit returns the memoized map; a cache miss runs
`self.get('')`, which dispatches into `NeoSession.request`, and only if
that call returned would the getter parse the body (`env.links`) and
memoize it. -/
def NeoSession_action_links_access : Nat → NeoSessionState → RootEnv →
    PyCallResult (List (String × String))
  | 0, _, _ => .recursionError []
  | fuel + 1, st, env =>
      match st.cache with
      | some links => .ok links st []
      | Option.none =>
          match NeoSession_request_run fuel st env "" with
          | .recursionError reqs => .recursionError reqs
          | .ok _ _ reqs => .ok env.links ⟨some env.links⟩ reqs

/-- Model of `NeoSession.request` at call depth `fuel`: its first
statement reads the `action_links` property; if that access returns, the
URL is substituted when it is a key of the map and the (possibly
substituted) target is handed to `super().request`. -/
def NeoSession_request_run : Nat → NeoSessionState → RootEnv → String →
    PyCallResult Unit
  | 0, _, _, _ => .recursionError []
  | fuel + 1, st, env, url =>
      match NeoSession_action_links_access fuel st env with
      | .recursionError reqs => .recursionError reqs
      | .ok links st' reqs =>
          match links.lookup url with
          | some endpoint => .ok () st' (reqs ++ [endpoint])
          | Option.none => .ok () st' (reqs ++ [url])

end

/-! ## Theorems -/

theorem pyCharLower_idem (c : Nat) : pyCharLower (pyCharLower c) = pyCharLower c := by
  unfold pyCharLower
  split
  · rw [if_neg (by omega)]
  · rfl

theorem pyLower_idem (s : PyStr) : pyLower (pyLower s) = pyLower s := by
  unfold pyLower
  rw [List.map_map]
  exact List.map_congr_left (fun c _ => pyCharLower_idem c)

mutual

theorem pyNormalize_idem_aux (v : PyValue) :
    pyNormalize (pyNormalize v) = pyNormalize v := by
  cases v with
  | dt y mo d h mi s us => rfl
  | date y mo d => rfl
  | str s => simp [pyNormalize, pyLower_idem]
  | int n => rfl
  | bool b => rfl
  | none => rfl
  | list l => simp [pyNormalize, pyNormalizeList_idem_aux l]
  | tuple l => simp [pyNormalize, pyNormalizeList_idem_aux l]
  | dict d => simp [pyNormalize, pyNormalizeDict_idem_aux d]

theorem pyNormalizeList_idem_aux (l : PyList) :
    pyNormalizeList (pyNormalizeList l) = pyNormalizeList l := by
  cases l with
  | nil => rfl
  | cons hd tl =>
      simp [pyNormalizeList, pyNormalize_idem_aux hd, pyNormalizeList_idem_aux tl]

theorem pyNormalizeDict_idem_aux (d : PyDict) :
    pyNormalizeDict (pyNormalizeDict d) = pyNormalizeDict d := by
  cases d with
  | nil => rfl
  | cons k v tl =>
      simp [pyNormalizeDict, pyNormalize_idem_aux v, pyNormalizeDict_idem_aux tl]

end

/-- C10: normalization is idempotent — for every structured value `v` built
from maps, sequences, strings, timestamps, and scalars,
`_normalize(_normalize(v)) = _normalize(v)`. -/
theorem normalize_idempotent (v : PyValue) :
    pyNormalize (pyNormalize v) = pyNormalize v :=
  pyNormalize_idem_aux v

set_option maxRecDepth 100000 in
/-- Sanity anchor: the FIPS 180 test vector for `"abc"`. -/
theorem sha1Hex_abc :
    sha1Hex [97, 98, 99] = "a9993e364706816aba3e25717850c26c9cd0d89d" := by decide

theorem beBytes_length (k n : Nat) : (beBytes k n).length = k := by
  induction k generalizing n with
  | zero => rfl
  | succ k ih => simp [beBytes, ih]

theorem sha1Bytes_length (msg : List Nat) : (sha1Bytes msg).length = 20 := by
  unfold sha1Bytes
  rcases sha1Chunks (sha1Pad msg) (0x67452301, 0xEFCDAB89, 0x98BADCFE, 0x10325476, 0xC3D2E1F0)
    with ⟨h0, h1, h2, h3, h4⟩
  simp [beBytes_length]

theorem hexDigitChar_mem (n : Nat) : hexDigitChar n ∈ hexChars := by
  have h : n % 16 ∈ List.range 16 := List.mem_range.mpr (Nat.mod_lt _ (by norm_num))
  have hmem : hexDigitChar (n % 16) ∈ hexChars := List.mem_map_of_mem hexDigitChar h
  have e : n % 16 % 16 = n % 16 := by omega
  simpa [hexDigitChar, e] using hmem

theorem sha1Hex_length (msg : List Nat) : (sha1Hex msg).length = 40 := by
  have h : ∀ l : List Nat, (l.flatMap byteToHex).length = 2 * l.length := by
    intro l
    induction l with
    | nil => rfl
    | cons b bs ih => simp [byteToHex, ih]; omega
  show (String.mk ((sha1Bytes msg).flatMap byteToHex)).length = 40
  simp [String.length, h, sha1Bytes_length]

theorem sha1Hex_chars (msg : List Nat) :
    ∀ c ∈ (sha1Hex msg).data, c ∈ hexChars := by
  intro c hc
  show c ∈ hexChars
  rcases List.mem_flatMap.mp hc with ⟨b, _, hcb⟩
  simp only [byteToHex, List.mem_cons, List.not_mem_nil, or_false] at hcb
  rcases hcb with h | h
  · exact h ▸ hexDigitChar_mem _
  · exact h ▸ hexDigitChar_mem _

/-- C9: `create_source(title, source_type)` returns a `Source` whose `id` is
the lowercase-hex SHA-1 digest of `"source"`, the title, the source type and
the ISO-format creation date joined with `":"` (byte 58) separators; the
digest is a 40-character string over the lowercase hexadecimal alphabet, and
it is a pure function of the construction-time inputs. -/
theorem create_source_id_spec (title source_type todayIso : PyStr) :
    (create_source title source_type todayIso).id =
      sha1Hex (sourceTag ++ [58] ++ utf8Encode title ++ [58] ++
        utf8Encode source_type ++ [58] ++ utf8Encode todayIso) ∧
    (create_source title source_type todayIso).id.length = 40 ∧
    ∀ c ∈ (create_source title source_type todayIso).id.data, c ∈ hexChars := by
  refine ⟨?_, sha1Hex_length _, sha1Hex_chars _⟩
  show sha1Hex (List.intercalate [58]
      [sourceTag, utf8Encode title, utf8Encode source_type, utf8Encode todayIso]) = _
  simp [List.intercalate, List.intersperse, List.append_assoc]

set_option maxRecDepth 1000000 in
/-- C2: evaluating `generate_hash` at the failing input.  The two attribute
maps hold exactly the same key-value pairs in different key orders, yet the
digests differ, because `pickle.dumps` serializes dict entries in iteration
(insertion) order.  The repository's own unit tests
(`tests/unit/generate_hash_tests.py`) instead pin `generate_hash` to a
sorted-key linearization scheme (`sha1('object type#{k=v,...}')`), which is
key-order independent — the shipped pickle-based implementation contradicts
them. -/
theorem generate_hash_key_order_sensitive :
    generate_hash [116] (.dict hashDictAB) ≠ generate_hash [116] (.dict hashDictBA) := by
  decide

/-- C3 counterexample: a timestamp with seconds `12` is rendered with final
component `0`, not the original seconds value `12` the claim predicts. -/
theorem normalize_date_zeroes_seconds_cex :
    JsonSessionMixin_normalize_date (.dt 2020 1 2 3 4 12 345678) ≠
      JsonDateResult.ints [2020, 1, 2, 3, 4, 12] ∧
    JsonSessionMixin_normalize_date (.dt 2020 1 2 3 4 12 345678) =
      JsonDateResult.ints [2020, 1, 2, 3, 4, 0] := by
  refine ⟨fun h => ?_, rfl⟩
  simp [JsonSessionMixin_normalize_date] at h

/-- C3 amended: a timestamp-with-time value is rendered as
`[year, month, day, hour, minute, 0]` — both the seconds and the
sub-second precision are zeroed — and a date-only value is rendered as
`[year, month, day]`. -/
theorem normalize_date_spec (y mo d h mi s us : Nat) :
    JsonSessionMixin_normalize_date (.dt y mo d h mi s us) =
      JsonDateResult.ints [y, mo, d, h, mi, 0] ∧
    JsonSessionMixin_normalize_date (.date y mo d) =
      JsonDateResult.ints [y, mo, d] :=
  ⟨rfl, rfl⟩

/-- C7: error discrimination in `_create_database` — for each of the two
`CREATE TABLE` statements, a creation failure whose text contains the
corresponding `table ... already exists` marker is suppressed and
initialization continues, and a failure with any other text is re-raised,
aborting construction. -/
theorem create_database_error_discrimination :
    (∀ m r2, sourceMarker.toList <:+: m.toList →
       create_database (.operror m) r2 = create_database .ok r2) ∧
    (∀ m r2, ¬sourceMarker.toList <:+: m.toList →
       create_database (.operror m) r2 = .error m) ∧
    (∀ m, peopleMarker.toList <:+: m.toList →
       create_database .ok (.operror m) = .ok ()) ∧
    (∀ m, ¬peopleMarker.toList <:+: m.toList →
       create_database .ok (.operror m) = .error m) := by
  refine ⟨?_, ?_, ?_, ?_⟩
  · intro m r2 h
    have h2 : sourceMarker.data <:+: m.data := h
    simp [create_database, createTableTolerant, h2]
  · intro m r2 h
    have h2 : ¬sourceMarker.data <:+: m.data := h
    simp [create_database, createTableTolerant, h2]
  · intro m h
    have h2 : peopleMarker.data <:+: m.data := h
    simp [create_database, createTableTolerant, h2]
  · intro m h
    have h2 : ¬peopleMarker.data <:+: m.data := h
    simp [create_database, createTableTolerant, h2]

theorem create_database_error_discrimination_witness :
    create_database (.operror "table source already exists") .ok =
      create_database .ok .ok ∧
    create_database (.operror "boom") .ok = .error "boom" ∧
    create_database .ok (.operror "no such table people already exists here") = .ok () ∧
    create_database .ok (.operror "fail") = .error "fail" :=
  ⟨create_database_error_discrimination.1 _ .ok (by decide),
   create_database_error_discrimination.2.1 _ .ok (by decide),
   create_database_error_discrimination.2.2.1 _ (by decide),
   create_database_error_discrimination.2.2.2 _ (by decide)⟩

/-- C5 counterexample: with the service root succeeding, an HTTP 500 on the
index-listing GET and on the create-index POST does not raise —
`_Neo4jLayer.__init__` completes and returns normally (the claim states
every non-success status of those two requests raises). -/
theorem neo4j_init_ignores_index_statuses :
    raiseForStatus failingStatusEnv.indexListStatus = true ∧
    raiseForStatus failingStatusEnv.createStatus = true ∧
    neo4jLayerInit failingStatusEnv =
      .ok ⟨1, 1, [⟨"http://index-url/Person", ["external_id"]⟩]⟩ :=
  ⟨rfl, rfl, rfl⟩

/-- C5 amended: during graph-layer initialization only the service-root
fetch is status-checked — a 4xx/5xx root status raises and propagates,
while, once the root fetch succeeds (and the root document maps
`"indexes"`), initialization completes without raising for every status of
the index-listing GET and of the create-index POST, which are never
checked. -/
theorem neo4j_init_status_handling (env : Neo4jEnv) (u : String)
    (hlook : env.rootActions.lookup "indexes" = some u) :
    (raiseForStatus env.rootStatus = true →
       neo4jLayerInit env = .error (.httpError env.rootStatus)) ∧
    (raiseForStatus env.rootStatus = false →
       neo4jLayerInit env =
         .ok ⟨1, 1,
           if "Person" ∈ env.indexLabels then []
           else [⟨urlsAppend u "Person", ["external_id"]⟩]⟩) := by
  constructor
  · intro h
    simp [neo4jLayerInit, h]
  · intro h
    simp [neo4jLayerInit, h, hlook]

theorem neo4j_init_status_handling_witness :
    neo4jLayerInit failingStatusEnv =
      .ok ⟨1, 1,
        if "Person" ∈ failingStatusEnv.indexLabels then []
        else [⟨urlsAppend "http://index-url/" "Person", ["external_id"]⟩]⟩ :=
  (neo4j_init_status_handling failingStatusEnv "http://index-url/" rfl).2 rfl

/-- C6 counterexample: the create-index request issued for the `Person`
label during initialization carries the property-key list
`["external_id"]`, which differs from the `["externalId"]` the claim
states. -/
theorem create_index_property_key_cex :
    neo4jLayerInit noPersonEnv =
      .ok ⟨1, 1, [⟨"http://index-url/Person", ["external_id"]⟩]⟩ ∧
    ("external_id" : String) ≠ "externalId" :=
  ⟨rfl, by decide⟩

/-- C6 amended: the create-index request `ensure_indexed` issues always
carries the fixed property-key list `["externalId"]`, but the request
issued for the `Person` label during `_Neo4jLayer` initialization carries
`["external_id"]` instead. -/
theorem create_index_property_keys (env : Neo4jEnv) (u : String)
    (hlook : env.rootActions.lookup "indexes" = some u)
    (hok : raiseForStatus env.rootStatus = false)
    (habs : "Person" ∉ env.indexLabels) :
    neo4jLayerInit env =
      .ok ⟨1, 1, [⟨urlsAppend u "Person", ["external_id"]⟩]⟩ ∧
    (∀ label indexes indexesUrl envE st t,
       ensure_indexed label indexes indexesUrl envE = .ok (st, t) →
       ∀ r ∈ t.createPosts, r.property_keys = ["externalId"]) := by
  constructor
  · simp [neo4jLayerInit, hok, hlook, habs]
  · intro label indexes indexesUrl envE st t h r hr
    unfold ensure_indexed at h
    split_ifs at h <;>
    first
      | exact Except.noConfusion h
      | (simp only [Except.ok.injEq, Prod.mk.injEq] at h
         obtain ⟨h1, h2⟩ := h
         subst h2
         first
           | (simp only [List.mem_singleton] at hr
              subst hr
              rfl)
           | simp at hr)

theorem create_index_property_keys_witness :
    neo4jLayerInit noPersonEnv =
      .ok ⟨1, 1, [⟨urlsAppend "http://index-url/" "Person", ["external_id"]⟩]⟩ :=
  (create_index_property_keys noPersonEnv "http://index-url/" rfl rfl (by decide)).1

theorem ensureIndexedTimes_of_mem (label : String) (indexes : List String)
    (indexesUrl : String) (env : EnsureEnv) (h : label ∈ indexes) (N : Nat) :
    ensureIndexedTimes label indexes indexesUrl env N = .ok (indexes, ⟨0, []⟩) := by
  induction N with
  | zero => rfl
  | succ n ih => simp [ensureIndexedTimes, ensure_indexed, h, ih]

/-- C4 (spec-modelled): once the memoized set contains the label, any
number of further `ensure_indexed` calls issues zero index-list fetches
and zero create-index requests and leaves the set unchanged; when the
label is absent, the call re-fetches the index list (raising on a
non-success status), replaces the memoized set with the fresh result,
re-checks membership, and issues a create-index request only if the label
is still absent (raising on a non-success status and adding the label on
success). -/
theorem ensure_indexed_idempotence (label : String) (indexes : List String)
    (indexesUrl : String) (env : EnsureEnv) (N : Nat) :
    (label ∈ indexes →
       ensureIndexedTimes label indexes indexesUrl env N = .ok (indexes, ⟨0, []⟩)) ∧
    (label ∉ indexes →
       ensure_indexed label indexes indexesUrl env =
         if raiseForStatus env.listStatus then .error env.listStatus
         else if label ∈ env.freshLabels then .ok (env.freshLabels, ⟨1, []⟩)
         else if raiseForStatus env.createStatus then .error env.createStatus
         else .ok (label :: env.freshLabels,
           ⟨1, [⟨urlsAppend indexesUrl label, ["externalId"]⟩]⟩)) := by
  constructor
  · intro h
    exact ensureIndexedTimes_of_mem label indexes indexesUrl env h N
  · intro h
    simp [ensure_indexed, h]

theorem ensure_indexed_idempotence_witness :
    ensureIndexedTimes "Person" ["Person"] "http://index-url/" ⟨200, [], 200⟩ 5 =
      .ok (["Person"], ⟨0, []⟩) ∧
    ensure_indexed "Person" [] "http://index-url/" ⟨200, [], 200⟩ =
      (if raiseForStatus ((⟨200, [], 200⟩ : EnsureEnv)).listStatus then
         .error ((⟨200, [], 200⟩ : EnsureEnv)).listStatus
       else if "Person" ∈ ((⟨200, [], 200⟩ : EnsureEnv)).freshLabels then
         .ok (((⟨200, [], 200⟩ : EnsureEnv)).freshLabels, ⟨1, []⟩)
       else if raiseForStatus ((⟨200, [], 200⟩ : EnsureEnv)).createStatus then
         .error ((⟨200, [], 200⟩ : EnsureEnv)).createStatus
       else .ok (["Person"],
         ⟨1, [⟨urlsAppend "http://index-url/" "Person", ["externalId"]⟩]⟩)) :=
  ⟨(ensure_indexed_idempotence "Person" ["Person"] "http://index-url/" ⟨200, [], 200⟩ 5).1
     (by decide),
   (ensure_indexed_idempotence "Person" [] "http://index-url/" ⟨200, [], 200⟩ 0).2
     (by decide)⟩

/-- C1 (spec-modelled): when the label-scoped search finds an existing node
under the computed identifier, `create_object` returns that match with no
node-creation POST and no labeling POST and leaves the store unchanged;
and starting from a store with no match, a first call followed by a second
call with the same label and data results in exactly one node creation
overall, with the second call issuing no POSTs and both calls returning a
node with the same identifier. -/
theorem create_object_upsert_idempotent (label : PyStr) (data : PyDict)
    (store : GraphStore) :
    (∀ m ms, find_object store label (generate_hash label (.dict data)) = m :: ms →
       create_object label data Option.none store = ⟨m, store, ⟨0, 0⟩⟩) ∧
    (find_object store label (generate_hash label (.dict data)) = [] →
       (create_object label data Option.none store).trace.nodeCreatePosts +
         (create_object label data Option.none
           (create_object label data Option.none store).store).trace.nodeCreatePosts = 1 ∧
       (create_object label data Option.none
         (create_object label data Option.none store).store).trace = ⟨0, 0⟩ ∧
       (create_object label data Option.none
           (create_object label data Option.none store).store).node.externalId =
         (create_object label data Option.none store).node.externalId) := by
  constructor
  · intro m ms h
    simp [create_object, h]
  · intro h
    have hstep :
        create_object label data Option.none store =
          ⟨⟨generate_hash label (.dict data), data, [label]⟩,
           ⟨store.nodes ++ [⟨generate_hash label (.dict data), data, [label]⟩]⟩, ⟨1, 1⟩⟩ := by
      simp [create_object, h]
    have hfind2 :
        find_object ⟨store.nodes ++ [⟨generate_hash label (.dict data), data, [label]⟩]⟩
          label (generate_hash label (.dict data)) =
          [⟨generate_hash label (.dict data), data, [label]⟩] := by
      unfold find_object at h ⊢
      simp only [List.filter_append, h]
      simp
    rw [hstep]
    simp [create_object, hfind2]

theorem create_object_upsert_idempotent_witness :
    find_object ⟨[]⟩ [112] (generate_hash [112] (.dict .nil)) = [] ∧
    ((create_object [112] .nil Option.none ⟨[]⟩).trace.nodeCreatePosts +
       (create_object [112] .nil Option.none
         (create_object [112] .nil Option.none ⟨[]⟩).store).trace.nodeCreatePosts = 1 ∧
     (create_object [112] .nil Option.none
       (create_object [112] .nil Option.none ⟨[]⟩).store).trace = ⟨0, 0⟩ ∧
     (create_object [112] .nil Option.none
         (create_object [112] .nil Option.none ⟨[]⟩).store).node.externalId =
       (create_object [112] .nil Option.none ⟨[]⟩).node.externalId) :=
  ⟨rfl, (create_object_upsert_idempotent [112] .nil ⟨[]⟩).2 rfl⟩

theorem neoSession_cold_cache_aux (env : RootEnv) (fuel : Nat) :
    NeoSession_action_links_access fuel ⟨Option.none⟩ env = .recursionError [] ∧
    NeoSession_request_run fuel ⟨Option.none⟩ env "" = .recursionError [] := by
  induction fuel with
  | zero =>
      exact ⟨by simp [NeoSession_action_links_access],
             by simp [NeoSession_request_run]⟩
  | succ n ih =>
      constructor
      · rw [NeoSession_action_links_access]
        simp [ih.2]
      · rw [NeoSession_request_run]
        simp [ih.1]

/-- C8: evaluating the code at the failing input.  With `_action_links`
still `None`, the first access of `action_links` recurses through
`get('') → request → action_links → …` and aborts with `RecursionError`
for every Python call-depth budget — no URL ever reaches
`super().request` (so no service-root fetch is issued) and nothing is
memoized; the claim states the first access terminates and issues exactly
one fetch.  Once the cache is populated (the situation the claim's
remaining parts and the unit tests describe), an access returns the
memoized map with no request, and `request` sends a URL naming a known
action to the mapped endpoint while passing a non-matching URL through
unchanged. -/
theorem action_links_first_access_diverges (env : RootEnv) :
    (∀ fuel, NeoSession_action_links_access fuel ⟨Option.none⟩ env =
       .recursionError []) ∧
    (∀ fuel links, NeoSession_action_links_access (fuel + 1) ⟨some links⟩ env =
       .ok links ⟨some links⟩ []) ∧
    (∀ fuel links url endpoint, links.lookup url = some endpoint →
       NeoSession_request_run (fuel + 2) ⟨some links⟩ env url =
         .ok () ⟨some links⟩ [endpoint]) ∧
    (∀ fuel links url, links.lookup url = Option.none →
       NeoSession_request_run (fuel + 2) ⟨some links⟩ env url =
         .ok () ⟨some links⟩ [url]) := by
  refine ⟨fun fuel => (neoSession_cold_cache_aux env fuel).1, ?_, ?_, ?_⟩
  · intro fuel links
    rw [NeoSession_action_links_access]
  · intro fuel links url endpoint hl
    rw [NeoSession_request_run, NeoSession_action_links_access]
    simp [hl]
  · intro fuel links url hl
    rw [NeoSession_request_run, NeoSession_action_links_access]
    simp [hl]

theorem action_links_first_access_diverges_witness :
    NeoSession_request_run 5 ⟨some [("node", "http://n/")]⟩ ⟨[("node", "http://n/")]⟩
      "node" = .ok () ⟨some [("node", "http://n/")]⟩ ["http://n/"] ∧
    NeoSession_request_run 5 ⟨some [("node", "http://n/")]⟩ ⟨[("node", "http://n/")]⟩
      "other" = .ok () ⟨some [("node", "http://n/")]⟩ ["other"] :=
  ⟨(action_links_first_access_diverges ⟨[("node", "http://n/")]⟩).2.2.1 3 _ _ _ rfl,
   (action_links_first_access_diverges ⟨[("node", "http://n/")]⟩).2.2.2 3 _ _ rfl⟩

end FamilyTree
